import Mathlib

/-!
Shallow embedding of the student-friend backend (Python/FastAPI over a
document store) for checking its natural-language specification.

Conventions used throughout:
* Python `float` money amounts are modelled as `ℚ`.
* `datetime` values are modelled as natural-number instants (`ℕ`); only
  their ordering matters to the code under study.
* A Mongo collection is a `List` of documents; `find_one` is `List.find?`
  (first match), `update_one` updates the first matching document,
  `update_many` maps over all matching documents, `insert_one` appends.
* `async` plays no role: each handler is a pure state transformer on the
  collections it touches.
-/

set_option linter.unnecessarySeqFocus false

namespace StudentFriend

/-- Mongo `update_one`-style update: apply `f` to the first element satisfying `p`,
leave everything else unchanged. -/
def updateFirst (p : α → Bool) (f : α → α) : List α → List α
  | [] => []
  | x :: xs => if p x then f x :: xs else x :: updateFirst p f xs

theorem updateFirst_length (p : α → Bool) (f : α → α) (l : List α) :
    (updateFirst p f l).length = l.length := by
  induction l with
  | nil => rfl
  | cons x xs ih =>
    simp only [updateFirst]
    by_cases h : p x <;> simp [h, ih]

/-- If `f` does not change whether `p` holds, then `find? p` after an
`updateFirst p f` returns the image under `f` of what it returned before. -/
theorem find?_updateFirst (p : α → Bool) (f : α → α)
    (hf : ∀ x, p (f x) = p x) (l : List α) :
    (updateFirst p f l).find? p = (l.find? p).map f := by
  induction l with
  | nil => rfl
  | cons x xs ih =>
    by_cases h : p x
    · simp [updateFirst, List.find?, h, hf]
    · simp [updateFirst, List.find?, h, ih]

/-- Lemma: `updateFirst` touches at most the elements satisfying `p`: at every
position the result is either the untouched original or its image under
`f`, the latter only when the original satisfied `p`. -/
theorem updateFirst_getElem? (p : α → Bool) (f : α → α) (l : List α) (i : ℕ) :
    (updateFirst p f l)[i]? = l[i]? ∨
      ∃ x, l[i]? = some x ∧ p x = true ∧ (updateFirst p f l)[i]? = some (f x) := by
  induction l generalizing i with
  | nil => left; rfl
  | cons x xs ih =>
    by_cases h : p x
    · cases i with
      | zero => right; exact ⟨x, by simp, h, by simp [updateFirst, h]⟩
      | succ j => left; simp [updateFirst, h]
    · cases i with
      | zero => left; simp [updateFirst, h]
      | succ j =>
        rcases ih j with h1 | ⟨y, hy, hpy, hy'⟩
        · left; simpa [updateFirst, h] using h1
        · right; exact ⟨y, by simpa using hy, hpy, by simpa [updateFirst, h] using hy'⟩

/-! ### Test scoring — `app/services/test_service.py` -/

/-- Model of `Question` (app/db/models/test_model.py): only the fields
`evaluate_test` reads, plus `question_text` which it copies into the
per-question result rows. -/
structure Question where
  question_text : String
  correct_answer : ℤ
  marks : ℤ
  deriving Repr, DecidableEq

/-- One entry of `detailed_results` built by `evaluate_test`. -/
structure DetailRow where
  question_number : ℕ
  question_text : String
  submitted_answer : ℤ
  correct_answer : ℤ
  is_correct : Bool
  marks_obtained : ℤ
  total_marks : ℤ
  deriving Repr, DecidableEq

/-- The success payload of `evaluate_test` (the timestamp field is
dropped: it is `datetime.utcnow()` noise). -/
structure TestResult where
  test_id : String
  student_id : String
  score : ℤ
  total_marks : ℤ
  percentage : ℚ
  detailed_results : List DetailRow
  deriving Repr, DecidableEq

/-- Python's `round(x, 2)`: round to two decimal places. -/
def roundTo2 (x : ℚ) : ℚ := (round (x * 100) : ℤ) / 100

/-- The loop body of `evaluate_test`, folding over the questions with the
running index into `submitted_answers`.  Each array access
`submitted_answers[i]` is modelled by `List.getElem?`; an out-of-bounds
access surfaces as `none` for the whole run (Python would raise
`IndexError`). -/
def evalLoop (answers : List ℤ) :
    List Question → ℕ → ℤ → ℤ → List DetailRow →
    Option (ℤ × ℤ × List DetailRow)
  | [], _, score, total, rows => some (score, total, rows)
  | q :: qs, i, score, total, rows =>
    match answers[i]? with
    | none => none
    | some a =>
      let is_correct := a = q.correct_answer
      evalLoop answers qs (i + 1)
        (if is_correct then score + q.marks else score)
        (total + q.marks)
        (rows ++ [⟨i + 1, q.question_text, a, q.correct_answer,
                   is_correct, if is_correct then q.marks else 0, q.marks⟩])

/-- Model of `TestService.evaluate_test`.  `Except.error` is the early-return
`{"error": ...}` dictionary; an outer `none` marks an uncaught
`IndexError` (which we prove never happens). -/
def evaluate_test (questions : List Question) (submitted_answers : List ℤ)
    (student_id test_id : String) : Option (Except String TestResult) :=
  if submitted_answers.length ≠ questions.length then
    some (Except.error "Number of answers doesn't match number of questions")
  else
    match evalLoop submitted_answers questions 0 0 0 [] with
    | none => none
    | some (score, total, rows) =>
      some (Except.ok
        { test_id := test_id
          student_id := student_id
          score := score
          total_marks := total
          percentage := if 0 < total then roundTo2 (score / (total : ℚ) * 100) else 0
          detailed_results := rows })

/-- Reference score: marks of the questions whose paired answer is correct. -/
def refScore (qas : List (Question × ℤ)) : ℤ :=
  (qas.map (fun p => if p.2 = p.1.correct_answer then p.1.marks else 0)).sum

/-- Reference total: sum of all questions' marks. -/
def refTotal (qs : List Question) : ℤ := (qs.map Question.marks).sum

/-- Reference `detailed_results` rows for the question/answer pairs,
starting at (0-based) question index `i`. -/
def refRows (i : ℕ) : List (Question × ℤ) → List DetailRow
  | [] => []
  | p :: ps =>
    ⟨i + 1, p.1.question_text, p.2, p.1.correct_answer,
     p.2 = p.1.correct_answer,
     if p.2 = p.1.correct_answer then p.1.marks else 0,
     p.1.marks⟩ :: refRows (i + 1) ps

theorem evalLoop_ok (answers : List ℤ) (qs : List Question) (i : ℕ)
    (score total : ℤ) (rows : List DetailRow)
    (h : i + qs.length ≤ answers.length) :
    evalLoop answers qs i score total rows =
      some (score + refScore (qs.zip (answers.drop i)),
            total + refTotal qs,
            rows ++ refRows i (qs.zip (answers.drop i))) := by
  induction qs generalizing i score total rows with
  | nil => simp [evalLoop, refScore, refTotal, refRows]
  | cons q qs ih =>
    have hi : i < answers.length := by
      simp only [List.length_cons] at h; omega
    obtain ⟨a, ha⟩ : ∃ a, answers[i]? = some a := ⟨_, List.getElem?_eq_getElem hi⟩
    have hdrop : answers.drop i = a :: answers.drop (i + 1) := by
      rw [List.drop_eq_getElem_cons hi,
        Option.some.inj ((List.getElem?_eq_getElem hi).symm.trans ha)]
    rw [evalLoop, ha]
    simp only []
    rw [ih (i + 1) _ _ _ (by simp only [List.length_cons] at h; omega)]
    rw [hdrop]
    simp only [List.zip_cons_cons, refScore, refTotal, refRows, List.map_cons,
      List.sum_cons, Option.some.injEq, Prod.mk.injEq]
    refine ⟨by by_cases hc : a = q.correct_answer <;> simp [hc] <;> ring,
            by ring, ?_⟩
    rw [List.append_assoc, List.singleton_append]
    rfl

theorem evaluate_test_eq (questions : List Question) (submitted_answers : List ℤ)
    (student_id test_id : String)
    (h : submitted_answers.length = questions.length) :
    evaluate_test questions submitted_answers student_id test_id =
      some (Except.ok
        { test_id := test_id
          student_id := student_id
          score := refScore (questions.zip submitted_answers)
          total_marks := refTotal questions
          percentage :=
            if 0 < refTotal questions then
              roundTo2 ((refScore (questions.zip submitted_answers) : ℚ) /
                (refTotal questions : ℚ) * 100)
            else 0
          detailed_results := refRows 0 (questions.zip submitted_answers) }) := by
  rw [evaluate_test, if_neg (by omega)]
  rw [evalLoop_ok submitted_answers questions 0 0 0 [] (by omega)]
  simp

/-- C2 counterexample: with a single question worth `-1` marks answered
correctly, `evaluate_test` returns `percentage = 0` although
`total_marks = -1 ≠ 0` and the claimed formula
`round(score / total_marks * 100, 2)` evaluates to `100`: the code
falls back to `0` whenever `total_marks > 0` fails, not only at `0`. -/
theorem C2_counterexample :
    evaluate_test [⟨"q1", 0, -1⟩] [0] "s" "t" =
      some (Except.ok ⟨"t", "s", -1, -1, 0, [⟨1, "q1", 0, 0, true, -1, -1⟩]⟩) ∧
    roundTo2 ((-1 : ℚ) / (-1 : ℚ) * 100) = 100 := by
  refine ⟨rfl, ?_⟩
  norm_num [roundTo2]

/-- C2 (amended): for equal-length question and answer lists,
`evaluate_test` adds a question's marks to the score exactly when the
submitted answer at the same index equals its `correct_answer`, sets
`total_marks` to the sum of all questions' marks, and returns
`percentage = round(score / total_marks * 100, 2)` — with `0` whenever
`total_marks` is not strictly positive (the code's guard is
`total_marks > 0`, so `0` is returned for zero *or negative* totals,
not only for `0`). -/
theorem C2_evaluate_test_scoring (questions : List Question)
    (submitted_answers : List ℤ) (student_id test_id : String)
    (h : submitted_answers.length = questions.length) :
    evaluate_test questions submitted_answers student_id test_id =
      some (Except.ok
        { test_id := test_id
          student_id := student_id
          score := refScore (questions.zip submitted_answers)
          total_marks := refTotal questions
          percentage :=
            if 0 < refTotal questions then
              roundTo2 ((refScore (questions.zip submitted_answers) : ℚ) /
                (refTotal questions : ℚ) * 100)
            else 0
          detailed_results := refRows 0 (questions.zip submitted_answers) }) :=
  evaluate_test_eq questions submitted_answers student_id test_id h

/-- C2 witness: two questions worth 2 and 3 marks, first answered
correctly, score `2` of `5`, percentage `40`. -/
theorem C2_witness :
    ([(1 : ℤ), 1].length = ([⟨"a", 1, 2⟩, ⟨"b", 0, 3⟩] : List Question).length) ∧
    evaluate_test [⟨"a", 1, 2⟩, ⟨"b", 0, 3⟩] [1, 1] "s" "t" =
      some (Except.ok ⟨"t", "s", 2, 5, 40,
        [⟨1, "a", 1, 1, true, 2, 2⟩, ⟨2, "b", 1, 0, false, 0, 3⟩]⟩) := by
  refine ⟨rfl, ?_⟩
  rw [C2_evaluate_test_scoring _ _ _ _ rfl]
  norm_num [refScore, refTotal, refRows, roundTo2]

/-- C9: `evaluate_test` never hits an out-of-bounds list access (the
result is never the `none` that models an uncaught `IndexError`), and
whenever the number of submitted answers differs from the number of
questions it returns the early error dictionary and computes no score. -/
theorem C9_evaluate_test_length_guard (questions : List Question)
    (submitted_answers : List ℤ) (student_id test_id : String) :
    evaluate_test questions submitted_answers student_id test_id ≠ none ∧
    (submitted_answers.length ≠ questions.length →
      evaluate_test questions submitted_answers student_id test_id =
        some (Except.error "Number of answers doesn't match number of questions")) := by
  constructor
  · by_cases h : submitted_answers.length = questions.length
    · rw [evaluate_test_eq questions submitted_answers student_id test_id h]
      exact Option.some_ne_none _
    · rw [evaluate_test, if_pos h]
      exact Option.some_ne_none _
  · intro h
    rw [evaluate_test, if_pos h]

/-- C9 witness: one answer against zero questions triggers the error. -/
theorem C9_witness :
    (([(0 : ℤ)] : List ℤ).length ≠ ([] : List Question).length) ∧
    evaluate_test [] [0] "s" "t" =
      some (Except.error "Number of answers doesn't match number of questions") :=
  ⟨by decide, (C9_evaluate_test_length_guard [] [0] "s" "t").2 (by decide)⟩

/-! ### Rate limiting — `app/middleware/rate_limiting.py` -/

/-- The `rate_limits` table of `RateLimiter.__init__` together with the
`.get(limit_type, (100, 60))` default applied in `is_allowed`:
`(max requests, window seconds)` per limit type. -/
def rate_limits (limit_type : String) : ℕ × ℕ :=
  if limit_type = "auth" then (5, 60)
  else if limit_type = "api" then (100, 60)
  else if limit_type = "webhook" then (10, 60)
  else if limit_type = "ai" then (50, 60)
  else (100, 60)

/-- Model of `RateLimiter.is_allowed`, restricted to the one key being queried:
`reqs` is `self.requests[key]`, `now` is `time.time()` (a `ℚ` instant).
Returns the decision together with the timestamp list the limiter stores
back for that key. -/
def is_allowed (reqs : List ℚ) (now : ℚ) (limit_type : String) : Bool × List ℚ :=
  let limit := (rate_limits limit_type).1
  let window := (rate_limits limit_type).2
  let cleaned := reqs.filter (fun t => now - t < (window : ℚ))
  if limit ≤ cleaned.length then (false, cleaned)
  else (true, cleaned ++ [now])

theorem rate_limits_window (limit_type : String) :
    (rate_limits limit_type).2 = 60 := by
  unfold rate_limits
  by_cases h1 : limit_type = "auth" <;>
    by_cases h2 : limit_type = "api" <;>
      by_cases h3 : limit_type = "webhook" <;>
        by_cases h4 : limit_type = "ai" <;>
          simp [h1, h2, h3, h4]

/-- C7: the rate limiter admits a request exactly when fewer than the
configured limit of previous requests fall inside the window, denies (and
records nothing) beyond that count, discards entries older than the
window from the stored state, keeps at most `limit` timestamps per key
once it admits, and is configured with 5 requests / 60 s for `auth` and
100 requests / 60 s for `api`. -/
theorem C7_rate_limiter_fixed_window (reqs : List ℚ) (now : ℚ) (limit_type : String) :
    ((is_allowed reqs now limit_type).1 = true ↔
      (reqs.filter (fun t => now - t < ((rate_limits limit_type).2 : ℚ))).length <
        (rate_limits limit_type).1) ∧
    ((is_allowed reqs now limit_type).1 = true →
      (is_allowed reqs now limit_type).2 =
        reqs.filter (fun t => now - t < ((rate_limits limit_type).2 : ℚ)) ++ [now] ∧
      (is_allowed reqs now limit_type).2.length ≤ (rate_limits limit_type).1) ∧
    ((rate_limits limit_type).1 ≤
        (reqs.filter (fun t => now - t < ((rate_limits limit_type).2 : ℚ))).length →
      is_allowed reqs now limit_type =
        (false, reqs.filter (fun t => now - t < ((rate_limits limit_type).2 : ℚ)))) ∧
    (∀ t ∈ (is_allowed reqs now limit_type).2,
      now - t < ((rate_limits limit_type).2 : ℚ)) ∧
    rate_limits "auth" = (5, 60) ∧ rate_limits "api" = (100, 60) := by
  unfold is_allowed
  by_cases h : (rate_limits limit_type).1 ≤
      (reqs.filter (fun t => now - t < ((rate_limits limit_type).2 : ℚ))).length
  · refine ⟨by simp [h, Nat.not_lt.mpr h], by simp [h], fun _ => by simp [h], ?_, rfl, rfl⟩
    intro t ht
    simp only [h, if_true] at ht
    exact of_decide_eq_true (List.mem_filter.mp ht).2
  · have h' := Nat.lt_of_not_le h
    refine ⟨by simp [h, Nat.lt_of_not_le h], ?_, fun hc => absurd hc h, ?_, rfl, rfl⟩
    · intro _
      refine ⟨by simp [h], ?_⟩
      simp only [h, if_false, List.length_append, List.length_singleton]
      omega
    · intro t ht
      simp only [h, if_false, List.mem_append, List.mem_singleton] at ht
      rcases ht with ht | ht
      · exact of_decide_eq_true (List.mem_filter.mp ht).2
      · rw [ht, sub_self, rate_limits_window]
        norm_num

/-- C7 witness: with five in-window timestamps already stored for an
`auth` key, a request at the same instant is denied and the state keeps
exactly the five cleaned entries. -/
theorem C7_witness :
    ((rate_limits "auth").1 ≤
      (List.filter (fun t => (0 : ℚ) - t < ((rate_limits "auth").2 : ℚ))
        [0, 0, 0, 0, 0]).length) ∧
    is_allowed [0, 0, 0, 0, 0] 0 "auth" = (false, [0, 0, 0, 0, 0]) := by
  have hfil : List.filter (fun t => (0 : ℚ) - t < ((rate_limits "auth").2 : ℚ))
      [0, 0, 0, 0, 0] = [0, 0, 0, 0, 0] := by
    norm_num [rate_limits]
  have hle : (rate_limits "auth").1 ≤
      (List.filter (fun t => (0 : ℚ) - t < ((rate_limits "auth").2 : ℚ))
        [0, 0, 0, 0, 0]).length := by
    rw [hfil]; norm_num [rate_limits]
  refine ⟨hle, ?_⟩
  rw [(C7_rate_limiter_fixed_window [0, 0, 0, 0, 0] 0 "auth").2.2.1 hle, hfil]

/-! ### Response envelopes — `app/utils/helpers.py` and
`app/utils/enhanced_responses.py` -/

/-- A JSON-ish value, enough to type the response dictionaries; a
dictionary is its ordered list of key/value fields. -/
inductive JsonVal where
  | null
  | bool (b : Bool)
  | str (s : String)
  | num (q : ℚ)
  | arr (items : List JsonVal)
  | obj (fields : List (String × JsonVal))

namespace Helpers

/-- Model of `success_response` of `app/utils/helpers.py` — the variant every
route module imports (`from app.utils.helpers import success_response`). -/
def success_response (data : JsonVal) (message : String) :
    List (String × JsonVal) :=
  [("success", .bool true), ("message", .str message), ("data", data)]

end Helpers

namespace Enhanced

/-- Model of `success_response` of `app/utils/enhanced_responses.py`.
`timestamp` stands for the `datetime.utcnow().isoformat()` string; the
`data` and `meta` fields are added only when the arguments are not
`None`. -/
def success_response (data : Option JsonVal) (message : String)
    (timestamp : String) (meta : Option JsonVal) :
    List (String × JsonVal) :=
  [("success", .bool true), ("message", .str message),
    ("timestamp", .str timestamp)]
    ++ (match data with | none => [] | some d => [("data", d)])
    ++ (match meta with | none => [] | some m => [("meta", m)])

end Enhanced

/-- C6 counterexample: the `success_response` the route handlers
actually use (`app/utils/helpers.py`) returns an object whose keys are
exactly `success`, `message`, `data` — there is no `timestamp` key, so
the claimed envelope `{success, message, data, timestamp}` is wrong for
every successful route response. -/
theorem C6_counterexample :
    (Helpers.success_response JsonVal.null "Success").map Prod.fst =
      ["success", "message", "data"] ∧
    "timestamp" ∉ (Helpers.success_response JsonVal.null "Success").map Prod.fst := by
  refine ⟨rfl, ?_⟩
  decide

/-- C6 (amended): the helper the route modules import wraps every
successful response as an object with exactly the keys
`success` (`true`), `message` and `data`, with no timestamp; the
enhanced helper produces `success` (`true`), `message` and `timestamp`,
adding `data` only when the payload is not `None` (and `meta` only when
given). -/
theorem C6_success_envelope (data : JsonVal) (message : String)
    (payload meta : Option JsonVal) (timestamp : String) :
    (Helpers.success_response data message).map Prod.fst =
      ["success", "message", "data"] ∧
    (Helpers.success_response data message).head? =
      some ("success", JsonVal.bool true) ∧
    (Enhanced.success_response payload message timestamp meta).map Prod.fst =
      ["success", "message", "timestamp"]
        ++ (if payload.isSome then ["data"] else [])
        ++ (if meta.isSome then ["meta"] else []) ∧
    (Enhanced.success_response payload message timestamp meta).head? =
      some ("success", JsonVal.bool true) := by
  refine ⟨rfl, rfl, ?_, ?_⟩
  · cases payload <;> cases meta <;> rfl
  · cases payload <;> cases meta <;> rfl

/-! ### OTP service — `app/services/otp_service.py` -/

/-- A document of the `otps` collection; `id` models the Mongo `_id`. -/
structure OTPDoc where
  id : ℕ
  email : String
  otp_code : String
  purpose : String
  is_used : Bool
  expires_at : ℕ
  deriving Repr, DecidableEq

/-- The `find_one` filter of `verify_otp`: same email, code and purpose,
not yet used, not expired (`expires_at > utcnow`). -/
def otpMatches (now : ℕ) (email otp_code purpose : String) (o : OTPDoc) : Bool :=
  o.email == email && o.otp_code == otp_code && o.purpose == purpose &&
    o.is_used == false && decide (now < o.expires_at)

/-- Model of `OTPService.verify_otp`: find the first valid matching OTP; when none
exists return `False`; otherwise mark that document as used (`update_one`
by `_id`) and return `True`. -/
def verify_otp (otps : List OTPDoc) (now : ℕ) (email otp_code purpose : String) :
    Bool × List OTPDoc :=
  match otps.find? (otpMatches now email otp_code purpose) with
  | none => (false, otps)
  | some o =>
    (true,
      updateFirst (fun x => x.id == o.id) (fun x => { x with is_used := true }) otps)

/-- Model of `OTPService.resend_otp`: `update_many` marks every unused OTP for the
email/purpose pair as used, then `create_otp` appends a fresh unused
document; `new_id`, `new_code` and `new_expiry` stand for the fresh
`_id`, the random `generate_otp()` output and the new `expires_at`. -/
def resend_otp (otps : List OTPDoc) (email purpose : String)
    (new_id : ℕ) (new_code : String) (new_expiry : ℕ) : String × List OTPDoc :=
  (new_code,
    otps.map (fun o =>
      if o.email == email && o.purpose == purpose && o.is_used == false then
        { o with is_used := true }
      else o)
    ++ [⟨new_id, email, new_code, purpose, false, new_expiry⟩])

theorem verify_otp_fst (otps : List OTPDoc) (now : ℕ) (email code purpose : String) :
    (verify_otp otps now email code purpose).1 =
      otps.any (otpMatches now email code purpose) := by
  unfold verify_otp
  cases hf : otps.find? (otpMatches now email code purpose) with
  | none =>
    have h := List.find?_eq_none.mp hf
    simp only []
    symm
    rw [List.any_eq_false]
    intro x hx
    exact fun hc => h x hx hc
  | some o =>
    have hm := List.mem_of_find?_eq_some hf
    have hp := List.find?_some hf
    simp only []
    symm
    rw [List.any_eq_true]
    exact ⟨o, hm, hp⟩

theorem verify_otp_twice (otps : List OTPDoc) (now : ℕ) (email code purpose : String)
    (hids : (otps.map OTPDoc.id).Nodup)
    (hone : otps.countP (otpMatches now email code purpose) ≤ 1) :
    (verify_otp (verify_otp otps now email code purpose).2 now email code purpose).1 =
      false := by
  induction otps with
  | nil => rfl
  | cons x xs ih =>
    rw [List.map_cons, List.nodup_cons] at hids
    by_cases hx : otpMatches now email code purpose x = true
    · have hf : (x :: xs).find? (otpMatches now email code purpose) = some x :=
        List.find?_cons_of_pos _ hx
      have hcount : xs.countP (otpMatches now email code purpose) = 0 := by
        rw [List.countP_cons_of_pos _ _ hx] at hone
        omega
      have hxs : ∀ y ∈ xs, ¬ otpMatches now email code purpose y = true := by
        intro y hy hc
        have := List.countP_eq_zero.mp hcount y hy
        exact this hc
      unfold verify_otp
      rw [hf]
      simp only [updateFirst, beq_self_eq_true, if_true]
      have hx' : otpMatches now email code purpose { x with is_used := true } = false := by
        unfold otpMatches
        simp
      rw [List.find?_cons_of_neg _ (by simp [hx']), List.find?_eq_none.mpr hxs]
    · have hf : (x :: xs).find? (otpMatches now email code purpose) =
          xs.find? (otpMatches now email code purpose) :=
        List.find?_cons_of_neg _ hx
      rw [List.countP_cons_of_neg _ _ (by simpa using hx)] at hone
      cases hfx : xs.find? (otpMatches now email code purpose) with
      | none =>
        unfold verify_otp
        rw [hf, hfx]
        simp only []
        rw [List.find?_cons_of_neg _ hx, List.find?_eq_none.mpr
          (fun y hy => by
            have := List.find?_eq_none.mp hfx y hy
            exact this)]
      | some o =>
        have ho : o ∈ xs := List.mem_of_find?_eq_some hfx
        have hid : ¬ x.id = o.id := by
          intro hc
          exact hids.1 (hc ▸ List.mem_map_of_mem OTPDoc.id ho)
        have hbe : (x.id == o.id) = false := by
          simp [hid]
        have ihx := ih hids.2 hone
        unfold verify_otp at ihx
        rw [hfx] at ihx
        simp only [] at ihx
        have hnone : (updateFirst (fun y => y.id == o.id)
            (fun y => { y with is_used := true }) xs).find?
            (otpMatches now email code purpose) = none := by
          cases hff : (updateFirst (fun y => y.id == o.id)
              (fun y => { y with is_used := true }) xs).find?
              (otpMatches now email code purpose) with
          | none => rfl
          | some z =>
            rw [hff] at ihx
            simp at ihx
        unfold verify_otp
        rw [hf, hfx]
        simp only [updateFirst, hbe, Bool.false_eq_true, if_false]
        rw [List.find?_cons_of_neg _ hx, hnone]

/-- C8 counterexample: with two stored OTPs that are identical except for
their `_id` (possible because `create_otp` draws codes at random and
never invalidates earlier ones), `verify_otp` succeeds, marks only the
first document used, and a second call for the same email, code and
purpose succeeds again — OTP verification is not single-use in general. -/
theorem C8_counterexample :
    (verify_otp [⟨1, "a@b.c", "123456", "registration", false, 100⟩,
                 ⟨2, "a@b.c", "123456", "registration", false, 100⟩]
      0 "a@b.c" "123456" "registration").1 = true ∧
    (verify_otp
      (verify_otp [⟨1, "a@b.c", "123456", "registration", false, 100⟩,
                   ⟨2, "a@b.c", "123456", "registration", false, 100⟩]
        0 "a@b.c" "123456" "registration").2
      0 "a@b.c" "123456" "registration").1 = true := by
  constructor <;> rfl

/-- C8 (amended): `verify_otp` returns `True` exactly when an unused,
unexpired OTP matching the given email, code and purpose is stored, and
it marks only the first such document as used; hence when the matched
OTP is the *only* stored match (document ids being distinct), any later
call for the same email, code and purpose returns `False`.  `resend_otp`
marks every previous unused OTP for that email and purpose as used
before appending the fresh one. -/
theorem C8_otp_single_use (otps : List OTPDoc) (now : ℕ)
    (email code purpose : String) (new_id new_expiry : ℕ) (new_code : String) :
    ((verify_otp otps now email code purpose).1 =
      otps.any (otpMatches now email code purpose)) ∧
    (∀ o, otps.find? (otpMatches now email code purpose) = some o →
      (verify_otp otps now email code purpose).2 =
        updateFirst (fun x => x.id == o.id)
          (fun x => { x with is_used := true }) otps) ∧
    ((otps.map OTPDoc.id).Nodup →
      otps.countP (otpMatches now email code purpose) ≤ 1 →
      (verify_otp (verify_otp otps now email code purpose).2
        now email code purpose).1 = false) ∧
    (∀ x ∈ ((resend_otp otps email purpose new_id new_code new_expiry).2).dropLast,
      x.email = email → x.purpose = purpose → x.is_used = true) ∧
    ((resend_otp otps email purpose new_id new_code new_expiry).2.getLast? =
      some ⟨new_id, email, new_code, purpose, false, new_expiry⟩) := by
  refine ⟨verify_otp_fst otps now email code purpose, ?_,
    verify_otp_twice otps now email code purpose, ?_, ?_⟩
  · intro o ho
    unfold verify_otp
    rw [ho]
  · intro x hx hxe hxp
    unfold resend_otp at hx
    rw [List.dropLast_concat] at hx
    obtain ⟨y, hy, hyx⟩ := List.mem_map.mp hx
    by_cases hc : (y.email == email && y.purpose == purpose && y.is_used == false) = true
    · rw [if_pos hc] at hyx
      rw [← hyx]
    · rw [if_neg hc] at hyx
      subst hyx
      simp only [hxe, hxp, beq_self_eq_true, Bool.true_and, Bool.and_eq_true,
        beq_iff_eq] at hc
      cases hb : y.is_used with
      | false => exact absurd hb hc
      | true => rfl
  · unfold resend_otp
    rw [List.getLast?_concat]

/-- C8 witness: a single stored OTP verifies once, and the second
attempt fails; resending marks the old OTP used and appends the new
one unused. -/
theorem C8_witness :
    (((verify_otp [⟨1, "a@b.c", "111111", "registration", false, 100⟩]
        0 "a@b.c" "111111" "registration").1 = true) ∧
    ((verify_otp
        (verify_otp [⟨1, "a@b.c", "111111", "registration", false, 100⟩]
          0 "a@b.c" "111111" "registration").2
        0 "a@b.c" "111111" "registration").1 = false)) ∧
    (resend_otp [⟨1, "a@b.c", "111111", "registration", false, 100⟩]
        "a@b.c" "registration" 2 "222222" 200).2 =
      [⟨1, "a@b.c", "111111", "registration", true, 100⟩,
       ⟨2, "a@b.c", "222222", "registration", false, 200⟩] := by
  have h := C8_otp_single_use [⟨1, "a@b.c", "111111", "registration", false, 100⟩]
    0 "a@b.c" "111111" "registration" 2 200 "222222"
  refine ⟨⟨?_, h.2.2.1 (by decide) (by decide)⟩, by decide⟩
  rw [h.1]
  decide

/-! ### Payment service — `app/services/payment_service.py` -/

/-- A document of the `payments` collection, with the fields
`initiate_payment` writes and `verify_payment` / `process_refund` read.
`expires_at` is an instant in seconds. -/
structure Payment where
  payment_id : String
  order_id : String
  user_id : String
  amount : ℚ
  fee_amount : ℚ
  total_amount : ℚ
  currency : String
  purpose : String
  gateway : String
  payment_method : String
  status : String
  expires_at : ℕ
  deriving Repr, DecidableEq

/-- A document of the `users` collection, with the fields the payment
and session code reads (`wallet_balance` is incremented with `$inc`;
`role`/`verified`/`name` are used by the session routes). -/
structure UserDoc where
  user_id : String
  name : String
  role : String
  verified : Bool
  wallet_balance : ℚ
  deriving Repr, DecidableEq

/-- A document of the `transactions` collection (the timestamp and
metadata fields are dropped). -/
structure Txn where
  user_id : String
  amount : ℚ
  type : String
  purpose : String
  reference_id : String
  deriving Repr, DecidableEq

/-- The collections `PaymentService` touches. -/
structure PaymentDB where
  payments : List Payment
  users : List UserDoc
  transactions : List Txn
  deriving Repr, DecidableEq

def supported_gateways : List String := ["razorpay", "stripe", "paypal"]

def supported_currencies : List String := ["INR", "USD", "EUR"]

def supported_payment_methods : List String :=
  ["card", "upi", "wallet", "netbanking", "bank_transfer"]

/-- The `fee_rates` nested dictionary of `_calculate_fees`, including the
`.get(gateway, {}).get(payment_method, 0.02)` default. -/
def fee_rates (gateway payment_method : String) : ℚ :=
  if gateway = "razorpay" then
    if payment_method = "card" then 299 / 10000
    else if payment_method = "upi" then 0
    else if payment_method = "wallet" then 199 / 10000
    else if payment_method = "netbanking" then 199 / 10000
    else if payment_method = "bank_transfer" then 0
    else 2 / 100
  else if gateway = "stripe" then
    if payment_method = "card" ∨ payment_method = "upi" ∨ payment_method = "wallet"
        ∨ payment_method = "netbanking" ∨ payment_method = "bank_transfer" then
      29 / 1000
    else 2 / 100
  else if gateway = "paypal" then
    if payment_method = "card" ∨ payment_method = "upi" ∨ payment_method = "wallet"
        ∨ payment_method = "netbanking" ∨ payment_method = "bank_transfer" then
      29 / 1000
    else 2 / 100
  else 2 / 100

/-- Model of `PaymentService._calculate_fees`: percentage rate by gateway and
method, a fixed 0.30 added for stripe and paypal, rounded to two
decimal places. -/
def calculate_fees (amount : ℚ) (gateway payment_method : String) : ℚ :=
  let base_rate := fee_rates gateway payment_method
  let fee := amount * base_rate
  let fee2 := if gateway = "stripe" then fee + 3 / 10
    else if gateway = "paypal" then fee + 3 / 10
    else fee
  roundTo2 fee2

/-- Model of `PaymentService.initiate_payment`: validation of gateway, currency
and payment method, fee calculation, and insertion of the new `created`
payment document.  `payment_id` / `order_id` stand for the random
`uuid4`-derived identifiers; `now` is `datetime.utcnow()` in seconds, so
`expires_at = now + 30 * 60`. -/
def initiate_payment (db : PaymentDB) (now : ℕ) (user_id : String) (amount : ℚ)
    (currency purpose gateway payment_method payment_id order_id : String) :
    Except String (Payment × PaymentDB) :=
  if gateway ∉ supported_gateways then
    Except.error ("Unsupported gateway: " ++ gateway)
  else if currency ∉ supported_currencies then
    Except.error ("Unsupported currency: " ++ currency)
  else if payment_method ∉ supported_payment_methods then
    Except.error ("Unsupported payment method: " ++ payment_method)
  else
    let fee_amount := calculate_fees amount gateway payment_method
    let payment_data : Payment :=
      ⟨payment_id, order_id, user_id, amount, fee_amount, amount + fee_amount,
        currency, purpose, gateway, payment_method, "created", now + 30 * 60⟩
    Except.ok (payment_data, { db with payments := db.payments ++ [payment_data] })

/-- Mongo `$inc` of `amt` on the wallet of the first user matching `uid`. -/
def creditWallet (users : List UserDoc) (uid : String) (amt : ℚ) : List UserDoc :=
  updateFirst (fun u => u.user_id == uid)
    (fun u => { u with wallet_balance := u.wallet_balance + amt }) users

/-- Status of the payment `find_one` would return. -/
def statusOf (db : PaymentDB) (payment_id : String) : Option String :=
  (db.payments.find? (fun p => p.payment_id == payment_id)).map Payment.status

/-- Wallet balance of the user `find_one` would return. -/
def walletOf (users : List UserDoc) (uid : String) : Option ℚ :=
  (users.find? (fun u => u.user_id == uid)).map UserDoc.wallet_balance

/-- Model of `PaymentService.verify_payment`.  The boolean `sigOk` is the outcome
of `_verify_gateway_signature` (external HMAC/gateway cryptography,
abstracted); the returned pair is the `success` flag and `message` of
the response dictionary. -/
def verify_payment (db : PaymentDB) (now : ℕ) (payment_id : String)
    (sigOk : Bool) : (Bool × String) × PaymentDB :=
  match db.payments.find? (fun p => p.payment_id == payment_id) with
  | none => ((false, "Payment not found"), db)
  | some payment =>
    if payment.expires_at < now then
      ((false, "Payment has expired"),
        { db with payments := (updateFirst (fun p => p.payment_id == payment_id)
            (fun p => { p with status := "expired" }) db.payments) })
    else if !sigOk then
      ((false, "Invalid payment signature"), db)
    else
      ((true, "Payment verified successfully"),
        { payments := (updateFirst (fun p => p.payment_id == payment_id)
            (fun p => { p with status := "completed" }) db.payments)
          users := (if payment.purpose = "wallet_recharge" then
              creditWallet db.users payment.user_id payment.amount
            else db.users)
          transactions := (db.transactions ++
            [⟨payment.user_id, payment.amount, "credit", payment.purpose, payment_id⟩]) })

/-- The `refund_amount = amount or payment["amount"]` of
`process_refund`: Python's `or` falls back to the full payment amount
when `amount` is `None` *or* `0` (falsy). -/
def refund_amount (amount : Option ℚ) (payment : Payment) : ℚ :=
  match amount with
  | none => payment.amount
  | some a => if a = 0 then payment.amount else a

/-- Model of `PaymentService.process_refund`.  `refund_id` stands for the random
`rfnd_`-prefixed identifier; the returned pair is the `success` flag and
`message`. -/
def process_refund (db : PaymentDB) (payment_id : String) (amount : Option ℚ)
    (refund_id : String) : (Bool × String) × PaymentDB :=
  match db.payments.find? (fun p => p.payment_id == payment_id) with
  | none => ((false, "Payment not found"), db)
  | some payment =>
    if payment.status ≠ "completed" then
      ((false, "Only completed payments can be refunded"), db)
    else if payment.amount < refund_amount amount payment then
      ((false, "Refund amount cannot exceed payment amount"), db)
    else
      ((true, "Refund processed successfully"),
        { payments := (updateFirst (fun p => p.payment_id == payment_id)
            (fun p => { p with status := "refunded" }) db.payments)
          users := creditWallet db.users payment.user_id (refund_amount amount payment)
          transactions := (db.transactions ++
            [⟨payment.user_id, refund_amount amount payment, "credit", "refund", refund_id⟩]) })

theorem find?_payment_status_update (payments : List Payment) (pid st : String) :
    (updateFirst (fun p => p.payment_id == pid)
        (fun p => { p with status := st }) payments).find?
      (fun p => p.payment_id == pid) =
      (payments.find? (fun p => p.payment_id == pid)).map
        (fun p => { p with status := st }) :=
  find?_updateFirst (fun p => p.payment_id == pid)
    (fun p => { p with status := st }) (fun _ => rfl) payments

theorem walletOf_creditWallet (users : List UserDoc) (uid : String) (amt : ℚ) :
    walletOf (creditWallet users uid amt) uid =
      (walletOf users uid).map (fun w => w + amt) := by
  unfold walletOf creditWallet
  rw [find?_updateFirst (fun u => u.user_id == uid)
    (fun u => { u with wallet_balance := u.wallet_balance + amt }) (fun _ => rfl) users]
  cases users.find? (fun u => u.user_id == uid) <;> rfl

/-- C1 counterexample: `verify_payment` never inspects the current
status, so a payment already `refunded` (unexpired, signature valid) is
moved back to `completed` — a transition outside the claimed
`created → completed/refunded/expired` lifecycle.  (Its wallet is also
re-credited, the purpose being `wallet_recharge`.) -/
theorem C1_counterexample :
    statusOf ⟨[⟨"pay_1", "ord_1", "u1", 50, 0, 50, "INR", "wallet_recharge",
        "razorpay", "card", "refunded", 100⟩],
      [⟨"u1", "U", "student", true, 0⟩], []⟩ "pay_1" = some "refunded" ∧
    statusOf (verify_payment ⟨[⟨"pay_1", "ord_1", "u1", 50, 0, 50, "INR",
        "wallet_recharge", "razorpay", "card", "refunded", 100⟩],
      [⟨"u1", "U", "student", true, 0⟩], []⟩ 50 "pay_1" true).2 "pay_1" =
      some "completed" := by
  constructor <;> rfl

/-- C1 (amended): for the payment `verify_payment` finds, the expiry
conditional alone (plus the signature check) decides the update — past
`expires_at` the status becomes `expired` with a failure response, and
otherwise a valid signature makes the status `completed` (crediting the
user's wallet by the payment amount exactly when the purpose is
`wallet_recharge`) *regardless of the payment's current status*, so a
refunded payment can return to `completed`; `process_refund` moves a
payment to `refunded` only from the `completed` status and changes
nothing when it fails. -/
theorem C1_payment_status_transitions (db : PaymentDB) (now : ℕ)
    (pid rid : String) (sigOk : Bool) (amt : Option ℚ) (p : Payment)
    (hp : db.payments.find? (fun q => q.payment_id == pid) = some p) :
    (p.expires_at < now →
      (verify_payment db now pid sigOk).1 = (false, "Payment has expired") ∧
      statusOf (verify_payment db now pid sigOk).2 pid = some "expired") ∧
    (¬ p.expires_at < now → sigOk = true →
      (verify_payment db now pid sigOk).1 = (true, "Payment verified successfully") ∧
      statusOf (verify_payment db now pid sigOk).2 pid = some "completed" ∧
      (p.purpose = "wallet_recharge" →
        walletOf (verify_payment db now pid sigOk).2.users p.user_id =
          (walletOf db.users p.user_id).map (fun w => w + p.amount)) ∧
      (p.purpose ≠ "wallet_recharge" →
        (verify_payment db now pid sigOk).2.users = db.users)) ∧
    (¬ p.expires_at < now → sigOk = false →
      verify_payment db now pid sigOk = ((false, "Invalid payment signature"), db)) ∧
    ((process_refund db pid amt rid).1.1 = true → p.status = "completed" ∧
      statusOf (process_refund db pid amt rid).2 pid = some "refunded") ∧
    ((process_refund db pid amt rid).1.1 = false →
      (process_refund db pid amt rid).2 = db) := by
  refine ⟨?_, ?_, ?_, ?_, ?_⟩
  · intro hexp
    unfold verify_payment
    rw [hp]
    dsimp only
    rw [if_pos hexp]
    refine ⟨rfl, ?_⟩
    unfold statusOf
    rw [show (({ db with payments := (updateFirst (fun q => q.payment_id == pid)
        (fun q => { q with status := "expired" }) db.payments) } : PaymentDB)).payments =
        updateFirst (fun q => q.payment_id == pid)
          (fun q => { q with status := "expired" }) db.payments from rfl,
      find?_payment_status_update, hp]
    rfl
  · intro hexp hsig
    subst hsig
    unfold verify_payment
    rw [hp]
    dsimp only
    rw [if_neg hexp]
    simp only [Bool.not_true]
    rw [if_neg (by simp)]
    refine ⟨rfl, ?_, ?_, ?_⟩
    · unfold statusOf
      rw [show ((⟨updateFirst (fun q => q.payment_id == pid)
          (fun q => { q with status := "completed" }) db.payments,
          if p.purpose = "wallet_recharge" then
            creditWallet db.users p.user_id p.amount else db.users,
          db.transactions ++ [⟨p.user_id, p.amount, "credit", p.purpose, pid⟩]⟩ :
            PaymentDB)).payments =
          updateFirst (fun q => q.payment_id == pid)
            (fun q => { q with status := "completed" }) db.payments from rfl,
        find?_payment_status_update, hp]
      rfl
    · intro hpur
      rw [show ((⟨updateFirst (fun q => q.payment_id == pid)
          (fun q => { q with status := "completed" }) db.payments,
          if p.purpose = "wallet_recharge" then
            creditWallet db.users p.user_id p.amount else db.users,
          db.transactions ++ [⟨p.user_id, p.amount, "credit", p.purpose, pid⟩]⟩ :
            PaymentDB)).users =
          (if p.purpose = "wallet_recharge" then
            creditWallet db.users p.user_id p.amount else db.users) from rfl,
        if_pos hpur]
      exact walletOf_creditWallet db.users p.user_id p.amount
    · intro hpur
      rw [show ((⟨updateFirst (fun q => q.payment_id == pid)
          (fun q => { q with status := "completed" }) db.payments,
          if p.purpose = "wallet_recharge" then
            creditWallet db.users p.user_id p.amount else db.users,
          db.transactions ++ [⟨p.user_id, p.amount, "credit", p.purpose, pid⟩]⟩ :
            PaymentDB)).users =
          (if p.purpose = "wallet_recharge" then
            creditWallet db.users p.user_id p.amount else db.users) from rfl,
        if_neg hpur]
  · intro hexp hsig
    subst hsig
    unfold verify_payment
    rw [hp]
    dsimp only
    rw [if_neg hexp]
    simp only [Bool.not_false]
    rw [if_pos trivial]
  · intro hs
    unfold process_refund at hs ⊢
    rw [hp] at hs ⊢
    dsimp only at hs ⊢
    by_cases hst : p.status ≠ "completed"
    · rw [if_pos hst] at hs
      exact absurd hs (by simp)
    · rw [if_neg hst] at hs ⊢
      by_cases hamt : p.amount < refund_amount amt p
      · rw [if_pos hamt] at hs
        exact absurd hs (by simp)
      · rw [if_neg hamt] at hs ⊢
        refine ⟨not_not.mp hst, ?_⟩
        unfold statusOf
        rw [show ((((true, "Refund processed successfully"),
            ⟨updateFirst (fun q => q.payment_id == pid)
              (fun q => { q with status := "refunded" }) db.payments,
            creditWallet db.users p.user_id (refund_amount amt p),
            db.transactions ++ [⟨p.user_id, refund_amount amt p, "credit",
              "refund", rid⟩]⟩) :
            (Bool × String) × PaymentDB)).2.payments =
            updateFirst (fun q => q.payment_id == pid)
              (fun q => { q with status := "refunded" }) db.payments from rfl,
          find?_payment_status_update, hp]
        rfl
  · intro hs
    unfold process_refund at hs ⊢
    rw [hp] at hs ⊢
    dsimp only at hs ⊢
    by_cases hst : p.status ≠ "completed"
    · rw [if_pos hst]
    · rw [if_neg hst] at hs ⊢
      by_cases hamt : p.amount < refund_amount amt p
      · rw [if_pos hamt]
      · rw [if_neg hamt] at hs
        exact absurd hs (by simp)

/-- C1 witness: an unexpired `created` wallet-recharge payment with a
valid signature is completed and the wallet credited. -/
theorem C1_witness :
    (¬ (100 : ℕ) < 50) ∧
    (verify_payment ⟨[⟨"pay_2", "ord_2", "u1", 50, 0, 50, "INR", "wallet_recharge",
        "razorpay", "card", "created", 100⟩],
      [⟨"u1", "U", "student", true, 10⟩], []⟩ 50 "pay_2" true).1 =
      (true, "Payment verified successfully") ∧
    statusOf (verify_payment ⟨[⟨"pay_2", "ord_2", "u1", 50, 0, 50, "INR",
        "wallet_recharge", "razorpay", "card", "created", 100⟩],
      [⟨"u1", "U", "student", true, 10⟩], []⟩ 50 "pay_2" true).2 "pay_2" =
      some "completed" ∧
    walletOf (verify_payment ⟨[⟨"pay_2", "ord_2", "u1", 50, 0, 50, "INR",
        "wallet_recharge", "razorpay", "card", "created", 100⟩],
      [⟨"u1", "U", "student", true, 10⟩], []⟩ 50 "pay_2" true).2.users "u1" =
      some 60 := by
  have h := (C1_payment_status_transitions
    ⟨[⟨"pay_2", "ord_2", "u1", 50, 0, 50, "INR", "wallet_recharge",
        "razorpay", "card", "created", 100⟩],
      [⟨"u1", "U", "student", true, 10⟩], []⟩ 50 "pay_2" "r" true none
    ⟨"pay_2", "ord_2", "u1", 50, 0, 50, "INR", "wallet_recharge",
      "razorpay", "card", "created", 100⟩ rfl).2.1 (by decide) rfl
  refine ⟨by omega, h.1, h.2.1, ?_⟩
  rw [h.2.2.1 rfl]
  norm_num [walletOf]

/-- C3: the transaction fee comes from the per-gateway per-method
percentage table (razorpay: card 2.99 %, upi 0 %, wallet 1.99 %,
netbanking 1.99 %, bank_transfer 0 %; stripe and paypal: 2.9 % for every
supported method) with a fixed 0.30 added for stripe and paypal, rounded
to two decimal places; `initiate_payment` returns
`total_amount = amount + fee` and errors out on any unsupported gateway,
currency or payment method. -/
theorem C3_fee_schedule (db : PaymentDB) (now : ℕ) (uid : String) (amount : ℚ)
    (currency purpose gateway payment_method pid oid : String) :
    (calculate_fees amount "razorpay" "card" = roundTo2 (amount * (299 / 10000))) ∧
    (calculate_fees amount "razorpay" "upi" = roundTo2 (amount * 0)) ∧
    (calculate_fees amount "razorpay" "wallet" = roundTo2 (amount * (199 / 10000))) ∧
    (calculate_fees amount "razorpay" "netbanking" = roundTo2 (amount * (199 / 10000))) ∧
    (calculate_fees amount "razorpay" "bank_transfer" = roundTo2 (amount * 0)) ∧
    (∀ m ∈ supported_payment_methods,
      calculate_fees amount "stripe" m = roundTo2 (amount * (29 / 1000) + 3 / 10) ∧
      calculate_fees amount "paypal" m = roundTo2 (amount * (29 / 1000) + 3 / 10)) ∧
    (gateway ∉ supported_gateways →
      initiate_payment db now uid amount currency purpose gateway payment_method pid oid =
        Except.error ("Unsupported gateway: " ++ gateway)) ∧
    (gateway ∈ supported_gateways → currency ∉ supported_currencies →
      initiate_payment db now uid amount currency purpose gateway payment_method pid oid =
        Except.error ("Unsupported currency: " ++ currency)) ∧
    (gateway ∈ supported_gateways → currency ∈ supported_currencies →
      payment_method ∉ supported_payment_methods →
      initiate_payment db now uid amount currency purpose gateway payment_method pid oid =
        Except.error ("Unsupported payment method: " ++ payment_method)) ∧
    (gateway ∈ supported_gateways → currency ∈ supported_currencies →
      payment_method ∈ supported_payment_methods →
      initiate_payment db now uid amount currency purpose gateway payment_method pid oid =
        Except.ok (⟨pid, oid, uid, amount,
            calculate_fees amount gateway payment_method,
            amount + calculate_fees amount gateway payment_method,
            currency, purpose, gateway, payment_method, "created", now + 30 * 60⟩,
          { db with payments := db.payments ++ [⟨pid, oid, uid, amount,
            calculate_fees amount gateway payment_method,
            amount + calculate_fees amount gateway payment_method,
            currency, purpose, gateway, payment_method, "created", now + 30 * 60⟩] })) := by
  refine ⟨rfl, rfl, rfl, rfl, rfl, ?_, ?_, ?_, ?_, ?_⟩
  · intro m hm
    simp only [supported_payment_methods, List.mem_cons, List.not_mem_nil,
      or_false] at hm
    rcases hm with rfl | rfl | rfl | rfl | rfl <;> exact ⟨rfl, rfl⟩
  · intro hgw
    unfold initiate_payment
    rw [if_pos hgw]
  · intro hgw hcur
    unfold initiate_payment
    rw [if_neg (not_not_intro hgw), if_pos hcur]
  · intro hgw hcur hm
    unfold initiate_payment
    rw [if_neg (not_not_intro hgw), if_neg (not_not_intro hcur), if_pos hm]
  · intro hgw hcur hm
    unfold initiate_payment
    rw [if_neg (not_not_intro hgw), if_neg (not_not_intro hcur),
      if_neg (not_not_intro hm)]

/-- C3 witness: a razorpay card payment of 100 INR costs
`round(100 * 0.0299, 2) = 2.99` in fees, for a total of 102.99. -/
theorem C3_witness :
    ("razorpay" ∈ supported_gateways ∧ "INR" ∈ supported_currencies ∧
      "card" ∈ supported_payment_methods) ∧
    initiate_payment ⟨[], [], []⟩ 0 "u" 100 "INR" "wallet_recharge"
        "razorpay" "card" "p" "o" =
      Except.ok (⟨"p", "o", "u", 100, 299 / 100, 100 + 299 / 100, "INR",
          "wallet_recharge", "razorpay", "card", "created", 1800⟩,
        ⟨[⟨"p", "o", "u", 100, 299 / 100, 100 + 299 / 100, "INR",
          "wallet_recharge", "razorpay", "card", "created", 1800⟩], [], []⟩) := by
  refine ⟨⟨by decide, by decide, by decide⟩, ?_⟩
  rw [(C3_fee_schedule ⟨[], [], []⟩ 0 "u" 100 "INR" "wallet_recharge" "razorpay"
    "card" "p" "o").2.2.2.2.2.2.2.2.2 (by decide) (by decide) (by decide)]
  have hfee : calculate_fees 100 "razorpay" "card" = 299 / 100 := by
    show roundTo2 ((100 : ℚ) * (299 / 10000)) = 299 / 100
    unfold roundTo2
    rw [show (100 : ℚ) * (299 / 10000) * 100 = ((299 : ℤ) : ℚ) by norm_num,
      round_intCast]
    norm_num
  rw [hfee]
  rfl

/-- C10: `process_refund` is atomic on error — for a missing payment, a
payment whose status is not `completed`, or a refund amount exceeding
the payment amount it fails and leaves every collection unchanged; on
success it sets the status to `refunded`, credits the user's wallet by
exactly the refund amount (the full payment amount when no amount is
given) and appends the matching credit transaction. -/
theorem C10_process_refund_atomic (db : PaymentDB) (pid rid : String)
    (amt : Option ℚ) :
    (db.payments.find? (fun q => q.payment_id == pid) = none →
      process_refund db pid amt rid = ((false, "Payment not found"), db)) ∧
    (∀ p, db.payments.find? (fun q => q.payment_id == pid) = some p →
      (p.status ≠ "completed" →
        process_refund db pid amt rid =
          ((false, "Only completed payments can be refunded"), db)) ∧
      (p.amount < refund_amount amt p →
        p.status = "completed" →
        process_refund db pid amt rid =
          ((false, "Refund amount cannot exceed payment amount"), db)) ∧
      (p.status = "completed" → refund_amount amt p ≤ p.amount →
        (process_refund db pid amt rid).1 = (true, "Refund processed successfully") ∧
        statusOf (process_refund db pid amt rid).2 pid = some "refunded" ∧
        walletOf (process_refund db pid amt rid).2.users p.user_id =
          (walletOf db.users p.user_id).map (fun w => w + refund_amount amt p) ∧
        (process_refund db pid amt rid).2.transactions =
          db.transactions ++
            [⟨p.user_id, refund_amount amt p, "credit", "refund", rid⟩]) ∧
      (amt = none → refund_amount amt p = p.amount) ∧
      (amt = some 0 → refund_amount amt p = p.amount)) := by
  constructor
  · intro hnone
    unfold process_refund
    rw [hnone]
  · intro p hp
    refine ⟨?_, ?_, ?_, ?_, ?_⟩
    · intro hst
      unfold process_refund
      rw [hp]
      dsimp only
      rw [if_pos hst]
    · intro hamt hst
      unfold process_refund
      rw [hp]
      dsimp only
      rw [if_neg (not_not_intro hst), if_pos hamt]
    · intro hst hle
      unfold process_refund
      rw [hp]
      dsimp only
      rw [if_neg (not_not_intro hst), if_neg (not_lt.mpr hle)]
      refine ⟨rfl, ?_, ?_, rfl⟩
      · unfold statusOf
        rw [show ((⟨updateFirst (fun q => q.payment_id == pid)
            (fun q => { q with status := "refunded" }) db.payments,
            creditWallet db.users p.user_id (refund_amount amt p),
            db.transactions ++ [⟨p.user_id, refund_amount amt p, "credit",
              "refund", rid⟩]⟩ : PaymentDB)).payments =
            updateFirst (fun q => q.payment_id == pid)
              (fun q => { q with status := "refunded" }) db.payments from rfl,
          find?_payment_status_update, hp]
        rfl
      · exact walletOf_creditWallet db.users p.user_id (refund_amount amt p)
    · intro h
      subst h
      rfl
    · intro h
      subst h
      unfold refund_amount
      dsimp only
      rw [if_pos rfl]

/-- C10 witness: refunding a completed 50-unit payment with no explicit
amount credits the full 50 back to the user's wallet and marks the
payment `refunded`. -/
theorem C10_witness :
    ((50 : ℚ) ≤ 50) ∧
    (process_refund ⟨[⟨"pay_3", "ord_3", "u1", 50, 0, 50, "INR", "course",
        "razorpay", "card", "completed", 100⟩],
      [⟨"u1", "U", "student", true, 5⟩], []⟩ "pay_3" none "rf").1 =
      (true, "Refund processed successfully") ∧
    statusOf (process_refund ⟨[⟨"pay_3", "ord_3", "u1", 50, 0, 50, "INR", "course",
        "razorpay", "card", "completed", 100⟩],
      [⟨"u1", "U", "student", true, 5⟩], []⟩ "pay_3" none "rf").2 "pay_3" =
      some "refunded" ∧
    walletOf (process_refund ⟨[⟨"pay_3", "ord_3", "u1", 50, 0, 50, "INR", "course",
        "razorpay", "card", "completed", 100⟩],
      [⟨"u1", "U", "student", true, 5⟩], []⟩ "pay_3" none "rf").2.users "u1" =
      some 55 := by
  have h := ((C10_process_refund_atomic
    ⟨[⟨"pay_3", "ord_3", "u1", 50, 0, 50, "INR", "course",
        "razorpay", "card", "completed", 100⟩],
      [⟨"u1", "U", "student", true, 5⟩], []⟩ "pay_3" "rf" none).2
    ⟨"pay_3", "ord_3", "u1", 50, 0, 50, "INR", "course",
      "razorpay", "card", "completed", 100⟩ rfl).2.2.1 rfl (by norm_num [refund_amount])
  refine ⟨le_refl 50, h.1, h.2.1, ?_⟩
  rw [h.2.2.1]
  norm_num [walletOf, refund_amount]

/-! ### Session routes — `app/routes/student_routes.py::book_session` and
`app/routes/faculty_routes.py::update_session`.

Notification documents carry no state the routes later read, so the
`notifications` collection is modelled by its document count. -/

/-- A document of the `sessions` collection. -/
structure Session where
  session_id : String
  student_id : String
  faculty_id : String
  course_id : String
  scheduled_time : ℕ
  duration_minutes : ℕ
  topic : String
  amount : ℚ
  status : String
  payment_status : String
  meeting_link : Option String
  notes : Option String
  deriving Repr, DecidableEq

/-- The collections the session routes touch. -/
structure SessionDB where
  sessions : List Session
  users : List UserDoc
  transactions : List Txn
  notifications : ℕ
  deriving Repr, DecidableEq

/-- The `SessionCreate` request body (app/db/models/session_model.py). -/
structure SessionCreate where
  faculty_id : String
  course_id : String
  scheduled_time : ℕ
  duration_minutes : ℕ
  topic : String
  amount : ℚ
  deriving Repr, DecidableEq

/-- The `SessionUpdate` request body; pydantic restricts `status`, when
present, to `accepted`/`rejected`/`completed`/`cancelled`. -/
structure SessionUpdate where
  status : Option String
  meeting_link : Option String
  notes : Option String
  deriving Repr, DecidableEq

/-- Truthiness guard `if update.field:` of the PATCH handler — the field
is written only when present and non-empty, otherwise the stored value
is kept. -/
def setIfTruthy (v : Option String) (cur : Option String) : Option String :=
  match v with
  | none => cur
  | some s => if s = "" then cur else some s

/-- Model of `book_session` (student_routes.py): faculty existence/verification
check, wallet check, then insertion of a `pending` session, `$inc` of
`-amount` on the student's wallet, a debit transaction and a
notification.  `sid` stands for the random `sess_` id.  A missing
`current_user` document would raise in Python and surface as the
generic 500 handler's response. -/
def book_session (db : SessionDB) (uid : String) (req : SessionCreate)
    (sid : String) : Except (ℕ × String) SessionDB :=
  match db.users.find? (fun u =>
      u.user_id == req.faculty_id && u.role == "faculty" && u.verified) with
  | none => Except.error (404, "Faculty not found or not verified")
  | some _ =>
    match db.users.find? (fun u => u.user_id == uid) with
    | none => Except.error (500, "An unexpected error occurred")
    | some student =>
      if student.wallet_balance < req.amount then
        Except.error (400, "Insufficient wallet balance")
      else
        Except.ok
          { sessions := (db.sessions ++ [⟨sid, uid, req.faculty_id, req.course_id,
              req.scheduled_time, req.duration_minutes, req.topic, req.amount,
              "pending", "pending", none, none⟩])
            users := creditWallet db.users uid (-req.amount)
            transactions := (db.transactions ++
              [⟨uid, req.amount, "debit", "Session booking: " ++ sid, sid⟩])
            notifications := db.notifications + 1 }

/-- Model of `update_session` (faculty_routes.py): 404 when the session id is
unknown, 403 when the session belongs to another faculty; otherwise the
requested fields are applied — when a status is requested it is stored
unconditionally, a transition to `rejected`/`cancelled` with
`payment_status != "refunded"` credits the student's wallet, sets
`payment_status` to `refunded` and appends a credit transaction, and
`accepted` sets `payment_status` to `completed`. -/
def update_session (db : SessionDB) (uid sid : String) (upd : SessionUpdate) :
    Except (ℕ × String) SessionDB :=
  match db.sessions.find? (fun s => s.session_id == sid) with
  | none => Except.error (404, "Session not found")
  | some session =>
    if session.faculty_id ≠ uid then
      Except.error (403, "Not authorized to update this session")
    else
      match upd.status with
      | none =>
        Except.ok
          { db with
            sessions := (updateFirst (fun s => s.session_id == sid)
              (fun s => { s with
                meeting_link := setIfTruthy upd.meeting_link s.meeting_link
                notes := setIfTruthy upd.notes s.notes }) db.sessions)
            notifications := db.notifications + 1 }
      | some st =>
        if (st = "rejected" ∨ st = "cancelled") ∧ session.payment_status ≠ "refunded" then
          Except.ok
            { sessions := (updateFirst (fun s => s.session_id == sid)
                (fun s => { s with
                  status := st
                  payment_status := "refunded"
                  meeting_link := setIfTruthy upd.meeting_link s.meeting_link
                  notes := setIfTruthy upd.notes s.notes }) db.sessions)
              users := creditWallet db.users session.student_id session.amount
              transactions := (db.transactions ++
                [⟨session.student_id, session.amount, "credit",
                  "Session refund: " ++ sid, sid⟩])
              notifications := db.notifications + 1 }
        else
          Except.ok
            { db with
              sessions := (updateFirst (fun s => s.session_id == sid)
                (fun s => { s with
                  status := st
                  payment_status := (if st = "accepted" then "completed"
                    else s.payment_status)
                  meeting_link := setIfTruthy upd.meeting_link s.meeting_link
                  notes := setIfTruthy upd.notes s.notes }) db.sessions)
              notifications := db.notifications + 1 }

/-- Status and payment status of the session `find_one` would return. -/
def sessionStateOf (sessions : List Session) (sid : String) :
    Option (String × String) :=
  (sessions.find? (fun s => s.session_id == sid)).map
    (fun s => (s.status, s.payment_status))

/-- C4 counterexample: the faculty PATCH handler never checks the
session's current status — a session already `rejected` (and refunded)
is moved to `accepted`, and its `payment_status` becomes `completed`,
contradicting the claimed pending → accepted/rejected/completed/cancelled
state machine in which rejected is terminal. -/
theorem C4_counterexample :
    sessionStateOf [⟨"sess_1", "stu", "fac", "c1", 0, 60, "t", 50,
        "rejected", "refunded", none, none⟩] "sess_1" =
      some ("rejected", "refunded") ∧
    (update_session ⟨[⟨"sess_1", "stu", "fac", "c1", 0, 60, "t", 50,
        "rejected", "refunded", none, none⟩], [], [], 0⟩
        "fac" "sess_1" ⟨some "accepted", none, none⟩).toOption.map
      (fun db2 => sessionStateOf db2.sessions "sess_1") =
      some (some ("accepted", "completed")) := by
  constructor <;> rfl

/-- C4 (amended): sessions are created `pending` by `book_session`, but
the faculty update endpoint stores whatever status is requested without
consulting the current one (so rejected/cancelled/completed sessions can
be moved again); on a requested `rejected`/`cancelled` with
`payment_status` not yet `refunded` the student's wallet is credited the
session amount and a credit transaction recorded (and never when
`payment_status` is already `refunded`), and a requested `accepted` sets
`payment_status` to `completed`. -/
theorem C4_session_update_transitions (db : SessionDB) (uid sid : String)
    (upd : SessionUpdate) (req : SessionCreate) (s : Session) (st : String)
    (hs : db.sessions.find? (fun t => t.session_id == sid) = some s)
    (hown : s.faculty_id = uid)
    (hst : upd.status = some st) :
    ((st = "rejected" ∨ st = "cancelled") → s.payment_status ≠ "refunded" →
      ∃ db2, update_session db uid sid upd = Except.ok db2 ∧
        sessionStateOf db2.sessions sid = some (st, "refunded") ∧
        walletOf db2.users s.student_id =
          (walletOf db.users s.student_id).map (fun w => w + s.amount) ∧
        db2.transactions = db.transactions ++
          [⟨s.student_id, s.amount, "credit", "Session refund: " ++ sid, sid⟩]) ∧
    (st = "accepted" →
      ∃ db2, update_session db uid sid upd = Except.ok db2 ∧
        sessionStateOf db2.sessions sid = some ("accepted", "completed") ∧
        db2.users = db.users ∧ db2.transactions = db.transactions) ∧
    (¬ ((st = "rejected" ∨ st = "cancelled") ∧ s.payment_status ≠ "refunded") →
      st ≠ "accepted" →
      ∃ db2, update_session db uid sid upd = Except.ok db2 ∧
        sessionStateOf db2.sessions sid = some (st, s.payment_status) ∧
        db2.users = db.users ∧ db2.transactions = db.transactions) ∧
    (∀ db2, book_session db uid req sid = Except.ok db2 →
      db2.sessions.getLast? = some ⟨sid, uid, req.faculty_id, req.course_id,
        req.scheduled_time, req.duration_minutes, req.topic, req.amount,
        "pending", "pending", none, none⟩) := by
  refine ⟨?_, ?_, ?_, ?_⟩
  · intro hrc hnr
    unfold update_session
    rw [hs]
    dsimp only
    rw [if_neg (not_not_intro hown), hst]
    dsimp only
    rw [if_pos ⟨hrc, hnr⟩]
    refine ⟨_, rfl, ?_, ?_, rfl⟩
    · unfold sessionStateOf
      dsimp only
      have hfu := find?_updateFirst (fun t => t.session_id == sid)
        (fun t =>
          { t with
            status := st
            payment_status := "refunded"
            meeting_link := setIfTruthy upd.meeting_link t.meeting_link
            notes := setIfTruthy upd.notes t.notes })
        (fun _ => rfl) db.sessions
      rw [hfu, hs]
      rfl
    · exact walletOf_creditWallet db.users s.student_id s.amount
  · intro hacc
    subst hacc
    unfold update_session
    rw [hs]
    dsimp only
    rw [if_neg (not_not_intro hown), hst]
    dsimp only
    rw [if_neg (by simp)]
    refine ⟨_, rfl, ?_, rfl, rfl⟩
    unfold sessionStateOf
    dsimp only
    have hfu := find?_updateFirst (fun t => t.session_id == sid)
      (fun t =>
        { t with
          status := "accepted"
          payment_status := (if "accepted" = "accepted" then "completed"
            else t.payment_status)
          meeting_link := setIfTruthy upd.meeting_link t.meeting_link
          notes := setIfTruthy upd.notes t.notes })
      (fun _ => rfl) db.sessions
    rw [hfu, hs]
    rfl
  · intro hnc hna
    unfold update_session
    rw [hs]
    dsimp only
    rw [if_neg (not_not_intro hown), hst]
    dsimp only
    rw [if_neg hnc]
    refine ⟨_, rfl, ?_, rfl, rfl⟩
    unfold sessionStateOf
    dsimp only
    have hfu := find?_updateFirst (fun t => t.session_id == sid)
      (fun t =>
        { t with
          status := st
          payment_status := (if st = "accepted" then "completed"
            else t.payment_status)
          meeting_link := setIfTruthy upd.meeting_link t.meeting_link
          notes := setIfTruthy upd.notes t.notes })
      (fun _ => rfl) db.sessions
    rw [hfu, hs]
    simp only [Option.map_some', Option.some.injEq, Prod.mk.injEq]
    exact ⟨trivial, if_neg hna⟩
  · intro db2 hbook
    unfold book_session at hbook
    cases hfa : db.users.find? (fun u =>
        u.user_id == req.faculty_id && u.role == "faculty" && u.verified) with
    | none => rw [hfa] at hbook; exact absurd hbook (by simp)
    | some f =>
      rw [hfa] at hbook
      dsimp only at hbook
      cases hstu : db.users.find? (fun u => u.user_id == uid) with
      | none => rw [hstu] at hbook; exact absurd hbook (by simp)
      | some student =>
        rw [hstu] at hbook
        dsimp only at hbook
        by_cases hw : student.wallet_balance < req.amount
        · rw [if_pos hw] at hbook
          exact absurd hbook (by simp)
        · rw [if_neg hw] at hbook
          cases hbook
          exact List.getLast?_concat _

/-- C4 witness: rejecting a pending (unrefunded) session stores
`rejected`/`refunded` and credits the student's wallet once. -/
theorem C4_witness :
    (update_session ⟨[⟨"sess_2", "stu", "fac", "c1", 0, 60, "t", 30,
        "pending", "pending", none, none⟩],
      [⟨"stu", "S", "student", true, 5⟩], [], 0⟩
      "fac" "sess_2" ⟨some "rejected", none, none⟩).toOption.map
      (fun db2 => (sessionStateOf db2.sessions "sess_2",
        walletOf db2.users "stu", db2.transactions.length)) =
      some (some ("rejected", "refunded"), some 35, 1) := by
  obtain ⟨db2, hok, hstate, hwal, htx⟩ :=
    (C4_session_update_transitions
      ⟨[⟨"sess_2", "stu", "fac", "c1", 0, 60, "t", 30,
          "pending", "pending", none, none⟩],
        [⟨"stu", "S", "student", true, 5⟩], [], 0⟩
      "fac" "sess_2" ⟨some "rejected", none, none⟩ ⟨"fac", "c1", 0, 60, "t", 30⟩
      ⟨"sess_2", "stu", "fac", "c1", 0, 60, "t", 30,
        "pending", "pending", none, none⟩ "rejected" rfl rfl rfl).1
      (Or.inl rfl) (by decide)
  rw [hok]
  simp only [Except.toOption, Option.map_some']
  rw [hstate, hwal, htx]
  norm_num [walletOf]

/-- C5: booking a 1:1 session is paid from the stored wallet — given the
faculty passes the existence/verification check and the student document
exists, the endpoint returns HTTP 400 `Insufficient wallet balance`
exactly when `wallet_balance < amount`, and otherwise appends the
pending session, decrements the wallet by exactly the amount and
records the matching debit transaction. -/
theorem C5_book_session_wallet (db : SessionDB) (uid sid : String)
    (req : SessionCreate) (f student : UserDoc)
    (hf : db.users.find? (fun u => u.user_id == req.faculty_id &&
      u.role == "faculty" && u.verified) = some f)
    (hstu : db.users.find? (fun u => u.user_id == uid) = some student) :
    (book_session db uid req sid =
        Except.error (400, "Insufficient wallet balance") ↔
      student.wallet_balance < req.amount) ∧
    (¬ student.wallet_balance < req.amount →
      book_session db uid req sid = Except.ok
        ⟨db.sessions ++ [⟨sid, uid, req.faculty_id, req.course_id,
          req.scheduled_time, req.duration_minutes, req.topic, req.amount,
          "pending", "pending", none, none⟩],
        creditWallet db.users uid (-req.amount),
        db.transactions ++ [⟨uid, req.amount, "debit",
          "Session booking: " ++ sid, sid⟩],
        db.notifications + 1⟩ ∧
      walletOf (creditWallet db.users uid (-req.amount)) uid =
        some (student.wallet_balance - req.amount)) := by
  constructor
  · unfold book_session
    rw [hf]
    dsimp only
    rw [hstu]
    dsimp only
    by_cases hw : student.wallet_balance < req.amount
    · rw [if_pos hw]
      simp [hw]
    · rw [if_neg hw]
      simp [hw]
  · intro hw
    unfold book_session
    rw [hf]
    dsimp only
    rw [hstu]
    dsimp only
    rw [if_neg hw]
    refine ⟨rfl, ?_⟩
    rw [walletOf_creditWallet]
    unfold walletOf
    rw [hstu]
    simp only [Option.map_some', Option.some.injEq]
    rw [sub_eq_add_neg]

/-- C5 witness: with a 100-unit wallet, a 200-unit booking fails with
HTTP 400 and a 40-unit booking succeeds, leaving 60 and a pending
session. -/
theorem C5_witness :
    ((100 : ℚ) < 200) ∧
    book_session ⟨[], [⟨"fac", "F", "faculty", true, 0⟩,
        ⟨"stu", "S", "student", true, 100⟩], [], 0⟩
      "stu" ⟨"fac", "c1", 10, 60, "topic", 200⟩ "s9" =
      Except.error (400, "Insufficient wallet balance") ∧
    (¬ (100 : ℚ) < 40) ∧
    (book_session ⟨[], [⟨"fac", "F", "faculty", true, 0⟩,
        ⟨"stu", "S", "student", true, 100⟩], [], 0⟩
      "stu" ⟨"fac", "c1", 10, 60, "topic", 40⟩ "s8").toOption.map
      (fun db2 => (sessionStateOf db2.sessions "s8",
        walletOf db2.users "stu", db2.transactions)) =
      some (some ("pending", "pending"), some 60,
        [⟨"stu", 40, "debit", "Session booking: s8", "s8"⟩]) := by
  have h1 := (C5_book_session_wallet ⟨[], [⟨"fac", "F", "faculty", true, 0⟩,
      ⟨"stu", "S", "student", true, 100⟩], [], 0⟩
    "stu" "s9" ⟨"fac", "c1", 10, 60, "topic", 200⟩
    ⟨"fac", "F", "faculty", true, 0⟩ ⟨"stu", "S", "student", true, 100⟩
    rfl rfl).1.mpr (by norm_num)
  have h2 := ((C5_book_session_wallet ⟨[], [⟨"fac", "F", "faculty", true, 0⟩,
      ⟨"stu", "S", "student", true, 100⟩], [], 0⟩
    "stu" "s8" ⟨"fac", "c1", 10, 60, "topic", 40⟩
    ⟨"fac", "F", "faculty", true, 0⟩ ⟨"stu", "S", "student", true, 100⟩
    rfl rfl).2 (by norm_num)).1
  refine ⟨by norm_num, h1, by norm_num, ?_⟩
  rw [h2]
  dsimp only
  simp only [Except.toOption, Option.map_some', Option.some.injEq, Prod.mk.injEq]
  refine ⟨rfl, ?_, rfl⟩
  rw [walletOf_creditWallet]
  rw [show walletOf [(⟨"fac", "F", "faculty", true, 0⟩ : UserDoc),
    ⟨"stu", "S", "student", true, 100⟩] "stu" = some 100 from rfl]
  simp only [Option.map_some', Option.some.injEq]
  norm_num
